import Mathlib

/-!
Shallow embedding of `src/logger/zap.go` (package `logger` of
huytran2000-hcmus/gopkg): a façade over the zap logging library that
builds a composite sink (console split by stdout/stderr plus optional
rotating-file cores) and exposes leveled logging methods.

Go machine integers (`type mode int`, `type level int`, zapcore.Level)
are modelled as `Int`; values stay tiny so no wraparound arises.
The external collaborators (zap, zapcore, lumberjack) are modelled only
as far as the wrapper configures them: encoder configurations become a
record of the fields the wrapper sets, level enablers become `Int → Bool`
predicates, writers become a datatype, and the per-method delegation of
the façade becomes a map into zap's sugared-logger entry points together
with zap's documented write-then-act semantics.
-/

namespace LoggerPkg

/-- Go `type mode int` (src/logger/zap.go line 25). -/
abbrev mode := Int

/-- Go `type level int` (src/logger/zap.go line 26). -/
abbrev level := Int

/-- `Developemnt mode = iota` (sic, line 12 of the source). -/
def Developemnt : mode := 0

/-- `Production` (line 13). -/
def Production : mode := 1

/-- `Debug level = iota` (line 17). -/
def Debug : level := 0

/-- `Info` (line 18). -/
def Info : level := 1

/-- `Warn` (line 19). -/
def Warn : level := 2

/-- `Error` (line 20). -/
def Error : level := 3

/-- `Default = Info` (line 21). -/
def Default : level := Info

namespace zap

/-! Constants of the external zapcore library: the numeric levels
(`zapcore.Level` is an `int8` with `DebugLevel = -1` and the rest
ascending) and `zapcore.OmitKey = ""`. -/

def DebugLevel : Int := -1

def InfoLevel : Int := 0

def WarnLevel : Int := 1

def ErrorLevel : Int := 2

def DPanicLevel : Int := 3

def PanicLevel : Int := 4

def FatalLevel : Int := 5

def OmitKey : String := ""

end zap

/-- `zapLevel` (lines 164-173): maps the façade's `level` to a
zapcore level; `Debug` and `Error` map to their zap counterparts and
everything else falls to the `default` branch, `zap.InfoLevel`. -/
def zapLevel (l : level) : Int :=
  if l = Debug then zap.DebugLevel
  else if l = Error then zap.ErrorLevel
  else zap.InfoLevel

/-- The zapcore level an event logged through the façade's
Debug/Info/Warn/Error methods carries: each façade method delegates to
the zap sugared-logger method of the same name, which writes at the
corresponding zapcore level (external zap semantics). -/
def eventLevel (l : level) : Int :=
  if l = Debug then zap.DebugLevel
  else if l = Info then zap.InfoLevel
  else if l = Warn then zap.WarnLevel
  else zap.ErrorLevel

/-- `infoPriority` (lines 150-155): `lv >= minLV && lv < zap.ErrorLevel`
with `minLV := zapLevel(minLevel)`. -/
def infoPriority (minLevel : level) : Int → Bool :=
  let minLV := zapLevel minLevel
  fun lv => decide (minLV ≤ lv) && decide (lv < zap.ErrorLevel)

/-- `errorPriority` (lines 157-162): `lv >= minLV && lv >= zap.ErrorLevel`. -/
def errorPriority (minLevel : level) : Int → Bool :=
  let minLV := zapLevel minLevel
  fun lv => decide (minLV ≤ lv) && decide (zap.ErrorLevel ≤ lv)

/-- A `zapcore.Level` used directly as a `LevelEnabler`:
`(l Level).Enabled(lvl) = lvl >= l` (external zapcore semantics);
`pathCore` passes `zapLevel(level)` to `zapcore.NewCore` this way. -/
def levelEnabler (min : Int) : Int → Bool :=
  fun lv => decide (min ≤ lv)

/-- Level encoders the wrapper refers to (`zapcore.CapitalColorLevelEncoder`,
`zapcore.CapitalLevelEncoder`, and the zap defaults). -/
inductive LevelEncoder where
  | capitalColor
  | capital
  | lowercase
deriving DecidableEq, Repr

/-- Time encoders: `zapcore.RFC3339TimeEncoder` and the zap defaults. -/
inductive TimeEncoder where
  | rfc3339
  | iso8601
  | epoch
deriving DecidableEq, Repr

/-- Caller encoders: `zapcore.ShortCallerEncoder` and `FullCallerEncoder`. -/
inductive CallerEncoder where
  | short
  | full
deriving DecidableEq, Repr

/-- Name encoders: `zapcore.FullNameEncoder` (also zap's fallback). -/
inductive NameEncoder where
  | full
deriving DecidableEq, Repr

/-- The fields of `zapcore.EncoderConfig` that the wrapper reads or sets. -/
structure EncoderConfig where
  MessageKey : String
  LevelKey : String
  TimeKey : String
  NameKey : String
  CallerKey : String
  FunctionKey : String
  StacktraceKey : String
  EncodeLevel : LevelEncoder
  EncodeTime : TimeEncoder
  EncodeCaller : CallerEncoder
  EncodeName : NameEncoder
deriving DecidableEq, Repr

/-- `zap.NewDevelopmentEncoderConfig()` (external zap defaults),
restricted to the modelled fields. -/
def NewDevelopmentEncoderConfig : EncoderConfig where
  MessageKey := "M"
  LevelKey := "L"
  TimeKey := "T"
  NameKey := "N"
  CallerKey := "C"
  FunctionKey := zap.OmitKey
  StacktraceKey := "S"
  EncodeLevel := .capital
  EncodeTime := .iso8601
  EncodeCaller := .short
  EncodeName := .full

/-- `zap.NewProductionEncoderConfig()` (external zap defaults),
restricted to the modelled fields. -/
def NewProductionEncoderConfig : EncoderConfig where
  MessageKey := "msg"
  LevelKey := "level"
  TimeKey := "ts"
  NameKey := "logger"
  CallerKey := "caller"
  FunctionKey := zap.OmitKey
  StacktraceKey := "stacktrace"
  EncodeLevel := .lowercase
  EncodeTime := .epoch
  EncodeCaller := .short
  EncodeName := .full

/-- `developmentEncoderConfig` (lines 102-124): zap's development
defaults with the wrapper's overrides. -/
def developmentEncoderConfig : EncoderConfig :=
  { NewDevelopmentEncoderConfig with
    NameKey := "logger"
    EncodeName := .full
    MessageKey := "message"
    TimeKey := "timestamp"
    EncodeTime := .rfc3339
    LevelKey := "level"
    EncodeLevel := .capitalColor
    CallerKey := "caller"
    EncodeCaller := .short
    StacktraceKey := "stacktrace"
    FunctionKey := zap.OmitKey }

/-- `productionEncoderConfig` (lines 126-148): zap's production
defaults with the wrapper's overrides. -/
def productionEncoderConfig : EncoderConfig :=
  { NewProductionEncoderConfig with
    NameKey := "logger"
    EncodeName := .full
    MessageKey := "msg"
    TimeKey := "ts"
    EncodeTime := .rfc3339
    LevelKey := "lv"
    EncodeLevel := .capital
    CallerKey := "caller"
    EncodeCaller := .short
    StacktraceKey := "stacktrace"
    FunctionKey := zap.OmitKey }

/-- `&lumberjack.Logger{Filename: path, MaxSize: 1000}`: the rotating
file writer, modelled by the two fields the wrapper sets. -/
structure LumberjackLogger where
  Filename : String
  MaxSize : Int
deriving DecidableEq, Repr

/-- A destination writer of a core: `os.Stdout`, `os.Stderr`, or the
`zapcore.NewMultiWriteSyncer(files...)` over the rotating-file syncers.
A `none` entry models a nil `zapcore.WriteSyncer` interface value
(writing through it panics). -/
inductive Writer where
  | stdout
  | stderr
  | multi (syncers : List (Option LumberjackLogger))
deriving DecidableEq, Repr

/-- The encoder a core pairs with its writer: console or JSON, each
carrying its `EncoderConfig`. -/
inductive Encoder where
  | console (cfg : EncoderConfig)
  | json (cfg : EncoderConfig)
deriving DecidableEq, Repr

/-- A `zapcore.Core`: an encoder, a destination, and a level-enabler
predicate. `zapcore.NewTee` nests flatten behaviorally (every subcore is
offered every event), so tees are represented as lists of these leaves. -/
structure Core where
  enc : Encoder
  ws : Writer
  enab : Int → Bool

/-- The writer slice built by `pathCore` (lines 81-87):
`files := make([]zapcore.WriteSyncer, len(paths))` allocates
`len(paths)` nil syncers, and the loop then appends one
lumberjack-backed syncer per path onto that slice. -/
def fileSyncers (paths : List String) : List (Option LumberjackLogger) :=
  List.replicate paths.length none ++
    paths.map (fun path => some { Filename := path, MaxSize := 1000 })

/-- `pathCore` (lines 78-92): JSON encoder over the supplied config, a
multi-write syncer over `fileSyncers`, enabled at `zapLevel(level)`;
never produces an error. -/
def pathCore (lv : level) (encCfg : EncoderConfig) (paths : List String) :
    Except String Core :=
  let encoder := Encoder.json encCfg
  let writer := Writer.multi (fileSyncers paths)
  .ok { enc := encoder, ws := writer, enab := levelEnabler (zapLevel lv) }

/-- `consoleCore` (lines 94-100): a tee of one console core to stdout
filtered by `infoPriority` and one to stderr filtered by
`errorPriority`, flattened to its two leaves. -/
def consoleCore (minLevel : level) (encCfg : EncoderConfig) : List Core :=
  [ { enc := .console encCfg, ws := .stdout, enab := infoPriority minLevel },
    { enc := .console encCfg, ws := .stderr, enab := errorPriority minLevel } ]

/-- The model of a `*zap.SugaredLogger` as configured here: its name
(`logger.Named(name)`) and the leaves of the tee it writes through. -/
structure SugaredLogger where
  name : String
  cores : List Core

/-- `newLogger` (lines 58-76): console core always, file core appended
when at least one path was supplied (propagating `pathCore`'s error),
then `zap.New(zapcore.NewTee(cores...)).Named(name).Sugar()`. -/
def newLogger (name : String) (minLevel : level) (cfg : EncoderConfig)
    (paths : List String) : Except String SugaredLogger :=
  let cores := consoleCore minLevel cfg
  if paths.length ≠ 0 then
    match pathCore minLevel cfg paths with
    | .error e => .error e
    | .ok fileCore => .ok { name := name, cores := cores ++ [fileCore] }
  else
    .ok { name := name, cores := cores }

/-- The façade handle (`type Logger struct { logger *zap.SugaredLogger }`). -/
structure Logger where
  logger : SugaredLogger

/-- `New` (lines 35-52): `case Production` picks the production encoder
config, the `default` branch the development one; errors are returned,
otherwise the sugared logger is wrapped. -/
def New (name : String) (md : mode) (minLevel : level)
    (filePaths : List String) : Except String Logger :=
  let r :=
    if md = Production then
      newLogger name minLevel productionEncoderConfig filePaths
    else
      newLogger name minLevel developmentEncoderConfig filePaths
  match r with
  | .error e => .error e
  | .ok slogger => .ok { logger := slogger }

/-- The cores of a built sink that accept an event at zapcore level
`lv`: zapcore tee semantics offers the event to every core and each
independently applies its enabler. -/
def SugaredLogger.acceptingCores (l : SugaredLogger) (lv : Int) : List Core :=
  l.cores.filter (fun c => c.enab lv)

/-- The encoder config `New`'s switch selects for a given mode. -/
def encCfgOf (md : mode) : EncoderConfig :=
  if md = Production then productionEncoderConfig else developmentEncoderConfig

/-- The core `pathCore` returns (it never returns an error). -/
def fileCoreOf (m : level) (cfg : EncoderConfig) (paths : List String) : Core :=
  { enc := .json cfg
    ws := .multi (fileSyncers paths)
    enab := levelEnabler (zapLevel m) }

lemma pathCore_eq (m : level) (cfg : EncoderConfig) (paths : List String) :
    pathCore m cfg paths = .ok (fileCoreOf m cfg paths) := rfl

lemma newLogger_eq (name : String) (m : level) (cfg : EncoderConfig)
    (paths : List String) :
    newLogger name m cfg paths =
      .ok ⟨name, consoleCore m cfg ++
        (if paths.length ≠ 0 then [fileCoreOf m cfg paths] else [])⟩ := by
  unfold newLogger
  by_cases h : paths.length ≠ 0 <;> simp [h, pathCore_eq]

lemma New_eq (name : String) (md : mode) (m : level) (paths : List String) :
    New name md m paths =
      .ok ⟨⟨name, consoleCore m (encCfgOf md) ++
        (if paths.length ≠ 0 then [fileCoreOf m (encCfgOf md) paths] else [])⟩⟩ := by
  unfold New encCfgOf
  by_cases h : md = Production <;> simp [h, newLogger_eq]

/-! ### The façade's per-severity methods (second source file of the package) -/

/-- The zap `SugaredLogger` entry points the façade delegates to. -/
inductive ZapMethod where
  | DPanic | DPanicf | Panicln
  | Debug | Debugf | Debugln
  | Error | Errorf | Errorln
  | Fatal | Fatalf | Fatalln
  | Info | Infof | Infoln
  | Warn | Warnf | Warnln
deriving DecidableEq, Repr

/-- The façade's exported methods on `Logger`. -/
inductive Method where
  | panic | panicf | panicln
  | debug | debugf | debugln
  | error | errorf | errorln
  | fatal | fatalf | fatalln
  | info | infof | infoln
  | warn | warnf | warnln
deriving DecidableEq, Repr

/-- Each façade method's one-line delegation to the wrapped
`*zap.SugaredLogger`: `Logger.Panic` calls `DPanic`, `Logger.Panicf`
calls `DPanicf`, `Logger.Panicln` calls `Panicln`, and every other
method calls the zap method of the same name (with or without the
f/ln suffix). -/
def facadeDelegate : Method → ZapMethod
  | .panic => .DPanic
  | .panicf => .DPanicf
  | .panicln => .Panicln
  | .debug => .Debug
  | .debugf => .Debugf
  | .debugln => .Debugln
  | .error => .Error
  | .errorf => .Errorf
  | .errorln => .Errorln
  | .fatal => .Fatal
  | .fatalf => .Fatalf
  | .fatalln => .Fatalln
  | .info => .Info
  | .infof => .Infof
  | .infoln => .Infoln
  | .warn => .Warn
  | .warnf => .Warnf
  | .warnln => .Warnln

/-- What a zap sugared call does after writing its event (external zap
semantics): return normally, panic only when the logger carries the
development option, always panic, or exit the process. -/
inductive PostAction where
  | returns
  | panicsIfDevelopment
  | panics
  | exits
deriving DecidableEq, Repr

/-- The zapcore level each zap sugared method writes its event at
(external zap semantics). -/
def ZapMethod.writesAt : ZapMethod → Int
  | .DPanic | .DPanicf => zap.DPanicLevel
  | .Panicln => zap.PanicLevel
  | .Debug | .Debugf | .Debugln => zap.DebugLevel
  | .Error | .Errorf | .Errorln => zap.ErrorLevel
  | .Fatal | .Fatalf | .Fatalln => zap.FatalLevel
  | .Info | .Infof | .Infoln => zap.InfoLevel
  | .Warn | .Warnf | .Warnln => zap.WarnLevel

/-- The post-write behavior of each zap sugared method (external zap
semantics): the DPanic variants panic only under the development
option, the Panic variants always panic, the Fatal variants exit the
process; everything else returns. -/
def ZapMethod.post : ZapMethod → PostAction
  | .DPanic | .DPanicf => .panicsIfDevelopment
  | .Panicln => .panics
  | .Fatal | .Fatalf | .Fatalln => .exits
  | _ => .returns

/-- Whether control returns to the caller after the write, given
whether the development option is set on the logger. -/
def PostAction.returnsToCaller (development : Bool) : PostAction → Bool
  | .returns => true
  | .panicsIfDevelopment => !development
  | .panics => false
  | .exits => false

/-- An abstract file-system environment: whether the operating system
can open or create the rotating file at a given path. The wrapper's
construction path never consults it, because the lumberjack writer
opens its file lazily at the first write. -/
def FsEnv := String → Bool

/-- An environment in which no path can be opened or created. -/
def deniedFs : FsEnv := fun _ => false

/-- A sample sink: `New "svc" Developemnt Info []`. -/
def sampleDevLogger : Logger :=
  ⟨⟨"svc", consoleCore Info developmentEncoderConfig⟩⟩

/-- A sample sink with a file core: `New "svc" Production Error ["a.log"]`. -/
def sampleProdLogger : Logger :=
  ⟨⟨"svc", consoleCore Error productionEncoderConfig ++
      [fileCoreOf Error productionEncoderConfig ["a.log"]]⟩⟩

/-- A sample sink floored at Warn: `New "svc" Production Warn ["a.log"]`. -/
def sampleWarnLogger : Logger :=
  ⟨⟨"svc", consoleCore Warn productionEncoderConfig ++
      [fileCoreOf Warn productionEncoderConfig ["a.log"]]⟩⟩

/-! ### Claims -/

/-- C1 (counterexample): with configured minimum Warn, an event at
severity Info — strictly below the minimum — is still accepted by a
core of the sink (the stdout console band), because `zapLevel`
collapses the Warn minimum to the info priority. -/
theorem C1_cex_warn_min_passes_info :
    Info < Warn ∧
    (New "svc" Developemnt Warn []).map
        (fun l => (l.logger.acceptingCores (eventLevel Info)).length)
      = .ok 1 :=
  ⟨by decide, rfl⟩

/-- C1 (amended): for valid severities, a logging call strictly below
the configured minimum is accepted by no core of the sink built by
`New` — except in the single collapsed case of minimum Warn and
severity Info. -/
theorem C1_below_min_silent (name : String) (md : mode) (m S : level)
    (paths : List String) (l : Logger)
    (hm : m = Debug ∨ m = Info ∨ m = Warn ∨ m = Error)
    (hS : S = Debug ∨ S = Info ∨ S = Warn ∨ S = Error)
    (hlt : S < m) (hx : ¬(m = Warn ∧ S = Info))
    (hnew : New name md m paths = .ok l) :
    l.logger.acceptingCores (eventLevel S) = [] := by
  rw [New_eq] at hnew
  injection hnew with h
  subst h
  have h1 : infoPriority m (eventLevel S) = false := by
    rcases hm with rfl | rfl | rfl | rfl <;> rcases hS with rfl | rfl | rfl | rfl <;>
      first
        | rfl
        | exact absurd hlt (by decide)
        | exact absurd ⟨rfl, rfl⟩ hx
  have h2 : errorPriority m (eventLevel S) = false := by
    rcases hm with rfl | rfl | rfl | rfl <;> rcases hS with rfl | rfl | rfl | rfl <;>
      first
        | rfl
        | exact absurd hlt (by decide)
        | exact absurd ⟨rfl, rfl⟩ hx
  have h3 : levelEnabler (zapLevel m) (eventLevel S) = false := by
    rcases hm with rfl | rfl | rfl | rfl <;> rcases hS with rfl | rfl | rfl | rfl <;>
      first
        | rfl
        | exact absurd hlt (by decide)
        | exact absurd ⟨rfl, rfl⟩ hx
  by_cases hp : paths.length ≠ 0 <;>
    simp [SugaredLogger.acceptingCores, consoleCore, fileCoreOf, hp, h1, h2, h3]

/-- C1 (witness): the amended theorem at minimum Error, severity Info,
one file path, in production mode. -/
theorem C1_below_min_silent_witness :
    (New "svc" Production Error ["a.log"]).map
        (fun l => l.logger.acceptingCores (eventLevel Info)) = .ok [] := by
  rw [show New "svc" Production Error ["a.log"] = .ok sampleProdLogger from rfl]
  have h := C1_below_min_silent "svc" Production Error Info ["a.log"]
    sampleProdLogger (by decide) (by decide) (by decide) (by decide) rfl
  simp [Except.map, h]

/-- C2 (code bug, failing input `New("svc", Production, Info, "a.log")`):
`pathCore` pre-sizes its writer slice with `make` to `len(paths)` nil
syncers and then appends the real rotating-file syncers after them, so
a single supplied path yields a two-entry multi-write list whose first
entry is a nil syncer — not exactly the one listed destination. -/
theorem C2_nil_syncers_prepended :
    (pathCore Info productionEncoderConfig ["a.log"]).map Core.ws
      = .ok (.multi [none, some { Filename := "a.log", MaxSize := 1000 }]) ∧
    fileSyncers ["a.log"] ≠ [some { Filename := "a.log", MaxSize := 1000 }] ∧
    (fileSyncers ["a.log"]).length = 2 :=
  ⟨rfl, by decide, rfl⟩

/-- C3 (counterexample): in a file-system environment where the path
cannot be opened or created, `New` still returns a nil error — no
construction-time open failure is ever reported. -/
theorem C3_cex_open_failure_not_reported :
    deniedFs "/var/log/app.log" = false ∧
    (New "svc" Production Info ["/var/log/app.log"]).isOk = true :=
  ⟨rfl, rfl⟩

/-- C3 (amended): `New` never returns a non-nil error: `pathCore`
unconditionally succeeds because the rotating-file writer opens its
file lazily at the first write, so open failures (permission, path)
cannot surface at construction time. -/
theorem C3_new_never_fails (name : String) (md : mode) (m : level)
    (paths : List String) : (New name md m paths).isOk = true := by
  rw [New_eq]
  rfl

/-- C4: every sink built by `New` contains the stdout console band and
the stderr console band, both floored at the configured minimum; for
valid severities S ≥ m the stdout band accepts the event exactly when
S < Error and the stderr band exactly when S ≥ Error, so the event
reaches exactly one of the two console streams. -/
theorem C4_console_split (name : String) (md : mode) (m S : level)
    (paths : List String) (l : Logger)
    (hm : m = Debug ∨ m = Info ∨ m = Warn ∨ m = Error)
    (hS : S = Debug ∨ S = Info ∨ S = Warn ∨ S = Error)
    (hle : m ≤ S) (hnew : New name md m paths = .ok l) :
    ({ enc := .console (encCfgOf md), ws := .stdout,
       enab := infoPriority m : Core } ∈ l.logger.cores) ∧
    ({ enc := .console (encCfgOf md), ws := .stderr,
       enab := errorPriority m : Core } ∈ l.logger.cores) ∧
    infoPriority m (eventLevel S) = decide (S < Error) ∧
    errorPriority m (eventLevel S) = decide (Error ≤ S) := by
  rw [New_eq] at hnew
  injection hnew with h
  subst h
  refine ⟨List.mem_append_left _ ?_, List.mem_append_left _ ?_, ?_, ?_⟩
  · simp [consoleCore]
  · simp [consoleCore]
  · rcases hm with rfl | rfl | rfl | rfl <;> rcases hS with rfl | rfl | rfl | rfl <;>
      first
        | rfl
        | exact absurd hle (by decide)
  · rcases hm with rfl | rfl | rfl | rfl <;> rcases hS with rfl | rfl | rfl | rfl <;>
      first
        | rfl
        | exact absurd hle (by decide)

/-- C4 (witness): the console-split theorem at minimum Info, severity
Warn, development mode, no file path. -/
theorem C4_console_split_witness :
    ({ enc := .console (encCfgOf Developemnt), ws := .stdout,
       enab := infoPriority Info : Core } ∈ sampleDevLogger.logger.cores) ∧
    ({ enc := .console (encCfgOf Developemnt), ws := .stderr,
       enab := errorPriority Info : Core } ∈ sampleDevLogger.logger.cores) ∧
    infoPriority Info (eventLevel Warn) = decide (Warn < Error) ∧
    errorPriority Info (eventLevel Warn) = decide (Error ≤ Warn) :=
  C4_console_split "svc" Developemnt Info Warn [] sampleDevLogger
    (by decide) (by decide) (by decide) rfl

/-- C5: `zapLevel` maps Debug to the debug priority, Error to the error
priority, and every other severity to the info priority, so Warn shares
the info priority — and hence the console destination logic — with
Info. -/
theorem C5_zapLevel_collapses_warn :
    zapLevel Debug = zap.DebugLevel ∧
    zapLevel Error = zap.ErrorLevel ∧
    (∀ l : level, l ≠ Debug → l ≠ Error → zapLevel l = zap.InfoLevel) ∧
    zapLevel Warn = zapLevel Info := by
  refine ⟨rfl, rfl, ?_, rfl⟩
  intro l h1 h2
  simp [zapLevel, h1, h2]

/-- C5 (witness): the default branch of `zapLevel` at Warn. -/
theorem C5_zapLevel_collapses_warn_witness :
    zapLevel Warn = zap.InfoLevel :=
  C5_zapLevel_collapses_warn.2.2.1 Warn (by decide) (by decide)

/-- C6 (counterexample): with minimum Warn, the file core's enabler
accepts an event at severity Info although Info < Warn, so the file
core does not accept exactly the severities in [minSeverity, +inf). -/
theorem C6_cex_file_core_accepts_below_min :
    Info < Warn ∧
    (pathCore Warn productionEncoderConfig ["a.log"]).map
        (fun c => c.enab (eventLevel Info))
      = .ok true :=
  ⟨by decide, rfl⟩

/-- C6 (amended): a file core is part of the sink iff at least one path
is supplied; it uses the JSON encoder over the mode's config, its
enabler accepts exactly the events whose zapcore level is at least
`zapLevel` of the minimum — which coincides with [minSeverity, +inf)
except that a Warn minimum also admits Info — and every rotating writer
it multiplexes to has MaxSize 1000 regardless of mode. -/
theorem C6_file_core (name : String) (md : mode) (m : level)
    (paths : List String) (l : Logger)
    (hnew : New name md m paths = .ok l) :
    (paths = [] → l.logger.cores = consoleCore m (encCfgOf md)) ∧
    (paths ≠ [] →
      l.logger.cores
        = consoleCore m (encCfgOf md) ++ [fileCoreOf m (encCfgOf md) paths]) ∧
    (fileCoreOf m (encCfgOf md) paths).enc = .json (encCfgOf md) ∧
    (∀ S : level, (fileCoreOf m (encCfgOf md) paths).enab (eventLevel S)
        = decide (zapLevel m ≤ eventLevel S)) ∧
    (∀ o ∈ fileSyncers paths, ∀ w : LumberjackLogger,
        o = some w → w.MaxSize = 1000) := by
  rw [New_eq] at hnew
  injection hnew with h
  subst h
  refine ⟨?_, ?_, rfl, fun S => rfl, ?_⟩
  · intro hp
    subst hp
    simp
  · intro hp
    have : paths.length ≠ 0 := by simpa using hp
    simp [this]
  · intro o ho w hw
    rcases List.mem_append.mp ho with hrep | hmap
    · rw [List.eq_of_mem_replicate hrep] at hw
      exact absurd hw (by simp)
    · rcases List.mem_map.mp hmap with ⟨p, _, rfl⟩
      injection hw with h
      rw [← h]

/-- C6 (witness): the amended file-core theorem at minimum Warn, one
path, production mode. -/
theorem C6_file_core_witness :
    ((["a.log"] : List String) = [] →
      sampleWarnLogger.logger.cores = consoleCore Warn (encCfgOf Production)) ∧
    ((["a.log"] : List String) ≠ [] →
      sampleWarnLogger.logger.cores
        = consoleCore Warn (encCfgOf Production)
            ++ [fileCoreOf Warn (encCfgOf Production) ["a.log"]]) ∧
    (fileCoreOf Warn (encCfgOf Production) ["a.log"]).enc
        = .json (encCfgOf Production) ∧
    (∀ S : level, (fileCoreOf Warn (encCfgOf Production) ["a.log"]).enab
        (eventLevel S) = decide (zapLevel Warn ≤ eventLevel S)) ∧
    (∀ o ∈ fileSyncers ["a.log"], ∀ w : LumberjackLogger,
        o = some w → w.MaxSize = 1000) :=
  C6_file_core "svc" Production Warn ["a.log"] sampleWarnLogger rfl

/-- C7: the development config uses colorized capital level encoding
and message key "message"; the production config uses plain capital
level encoding and message key "msg"; both use RFC3339 timestamps and
short caller references and omit the function-name field. -/
theorem C7_encoder_configs :
    developmentEncoderConfig.EncodeLevel = .capitalColor ∧
    developmentEncoderConfig.MessageKey = "message" ∧
    productionEncoderConfig.EncodeLevel = .capital ∧
    productionEncoderConfig.MessageKey = "msg" ∧
    developmentEncoderConfig.EncodeTime = .rfc3339 ∧
    productionEncoderConfig.EncodeTime = .rfc3339 ∧
    developmentEncoderConfig.EncodeCaller = .short ∧
    productionEncoderConfig.EncodeCaller = .short ∧
    developmentEncoderConfig.FunctionKey = zap.OmitKey ∧
    productionEncoderConfig.FunctionKey = zap.OmitKey :=
  ⟨rfl, rfl, rfl, rfl, rfl, rfl, rfl, rfl, rfl, rfl⟩

/-- C8: `Logger.Panic` and `Logger.Panicf` delegate to zap's DPanic
calls, which write at the DPanic severity and abort only when the
development option is set, while `Logger.Panicln` delegates to a
Panic-level call that always raises after writing. -/
theorem C8_panic_is_dpanic :
    facadeDelegate .panic = .DPanic ∧
    facadeDelegate .panicf = .DPanicf ∧
    (facadeDelegate .panic).writesAt = zap.DPanicLevel ∧
    (facadeDelegate .panicf).writesAt = zap.DPanicLevel ∧
    (facadeDelegate .panic).post = .panicsIfDevelopment ∧
    (facadeDelegate .panicf).post = .panicsIfDevelopment ∧
    (facadeDelegate .panic).post.returnsToCaller false = true ∧
    (facadeDelegate .panic).post.returnsToCaller true = false ∧
    (facadeDelegate .panicln).writesAt = zap.PanicLevel ∧
    (facadeDelegate .panicln).post = .panics := by
  decide

/-- C9: each of `Logger.Fatal`, `Logger.Fatalf` and `Logger.Fatalln`
delegates to a zap call that writes its event at the Fatal level and
then exits the process, so control never returns to the caller. -/
theorem C9_fatal_terminates (development : Bool) (m : Method)
    (h : m = .fatal ∨ m = .fatalf ∨ m = .fatalln) :
    (facadeDelegate m).writesAt = zap.FatalLevel ∧
    (facadeDelegate m).post = .exits ∧
    (facadeDelegate m).post.returnsToCaller development = false := by
  rcases h with rfl | rfl | rfl <;> exact ⟨rfl, rfl, rfl⟩

/-- C9 (witness): the Fatal-termination theorem at `Logger.Fatal`. -/
theorem C9_fatal_terminates_witness :
    (facadeDelegate .fatal).writesAt = zap.FatalLevel ∧
    (facadeDelegate .fatal).post = .exits ∧
    (facadeDelegate .fatal).post.returnsToCaller true = false :=
  C9_fatal_terminates true .fatal (Or.inl rfl)

/-- C10: `New` with any mode other than Production — including integer
values outside the {Developemnt, Production} enumeration — builds the
same logger as Development mode, because the switch's `default` branch
selects the development encoder config. -/
theorem C10_default_mode_is_development (name : String) (md : mode)
    (minLevel : level) (paths : List String) (h : md ≠ Production) :
    New name md minLevel paths = New name Developemnt minLevel paths := by
  unfold New
  rw [if_neg h, if_neg (by decide : ¬(Developemnt = Production))]

/-- C10 (witness): mode 7, an out-of-range value, behaves as
Development. -/
theorem C10_default_mode_is_development_witness :
    New "svc" 7 Info ["a.log"] = New "svc" Developemnt Info ["a.log"] :=
  C10_default_mode_is_development "svc" 7 Info ["a.log"] (by decide)

end LoggerPkg
